import Mathlib

/-!
Shallow embedding of the stock-research MCP server's routing-and-analysis
pipeline (scoring engine, signal classifier, technical indicators, metrics
normalizer, provider router), with theorems settling the spec claims.

Numbers are modelled by `ℚ`; Python's `round(x, 2)` (round-half-to-even)
is modelled by `round2`.
-/

namespace StockSpec

/-- Round-half-to-even to an integer, as Python's builtin `round` does. -/
def roundHalfEven (x : ℚ) : ℤ :=
  let f : ℤ := Int.floor x
  let frac : ℚ := x - (f : ℚ)
  if frac < 1/2 then f
  else if 1/2 < frac then f + 1
  else if f % 2 = 0 then f else f + 1

/-- Python's `round(x, 2)`. -/
def round2 (x : ℚ) : ℚ := ((roundHalfEven (x * 100) : ℚ)) / 100

theorem le_roundHalfEven {n : ℤ} {x : ℚ} (h : (n : ℚ) ≤ x) :
    n ≤ roundHalfEven x := by
  have hf : n ≤ Int.floor x := Int.le_floor.mpr h
  unfold roundHalfEven
  dsimp only
  split
  · exact hf
  · split
    · omega
    · split
      · exact hf
      · omega

theorem roundHalfEven_le {n : ℤ} {x : ℚ} (h : x ≤ (n : ℚ)) :
    roundHalfEven x ≤ n := by
  have hfl : (Int.floor x : ℚ) ≤ x := Int.floor_le x
  have hf : Int.floor x ≤ n := by
    have : (Int.floor x : ℚ) ≤ (n : ℚ) := le_trans hfl h
    exact_mod_cast this
  unfold roundHalfEven
  dsimp only
  split
  · exact hf
  · rename_i h1
    push_neg at h1
    have hlt : Int.floor x < n := by
      rcases lt_or_eq_of_le hf with hlt | heq
      · exact hlt
      · exfalso
        have : x - (Int.floor x : ℚ) ≥ 1/2 := h1
        rw [heq] at this
        have : (n : ℚ) + 1/2 ≤ x := by linarith
        linarith
    split
    · omega
    · split
      · exact hf
      · omega

theorem round2_nonneg {x : ℚ} (h : 0 ≤ x) : 0 ≤ round2 x := by
  unfold round2
  have h0 : ((0 : ℤ) : ℚ) ≤ x * 100 := by push_cast; nlinarith
  have := le_roundHalfEven h0
  have hq : (0 : ℚ) ≤ (roundHalfEven (x * 100) : ℚ) := by exact_mod_cast this
  positivity

theorem round2_le_100 {x : ℚ} (h : x ≤ 100) : round2 x ≤ 100 := by
  unfold round2
  have h0 : x * 100 ≤ ((10000 : ℤ) : ℚ) := by push_cast; nlinarith
  have := roundHalfEven_le h0
  have hq : (roundHalfEven (x * 100) : ℚ) ≤ 10000 := by exact_mod_cast this
  linarith [div_le_div_of_nonneg_right (c := (100 : ℚ)) hq (by norm_num)]

/-! ## Scoring engine (`mcp_server/scoring/engine.py`) -/

/-- `MetricsTable` from `mcp_server/schemas/models.py` (as consumed by the
scoring engine and produced by `compute_metrics`): every field is
independently optional. -/
structure MetricsTable where
  revenue_yoy : Option ℚ := none
  revenue_cagr_3y : Option ℚ := none
  revenue_cagr_5y : Option ℚ := none
  eps_yoy : Option ℚ := none
  forward_eps_growth : Option ℚ := none
  margin_trend : Option ℚ := none
  gross_margin : Option ℚ := none
  operating_margin : Option ℚ := none
  net_margin : Option ℚ := none
  roe : Option ℚ := none
  roic : Option ℚ := none
  debt_equity : Option ℚ := none
  pe : Option ℚ := none
  forward_pe : Option ℚ := none
  ps : Option ℚ := none
  ev_ebitda : Option ℚ := none
  beta : Option ℚ := none
  volatility_proxy : Option ℚ := none
  drawdown_risk : Option ℚ := none
deriving DecidableEq

/-- `ScoringWeights` from `mcp_server/config/settings.py` (defaults
0.2, 0.25, 0.2, 0.2, 0.15; pydantic constrains each to [0,1]). -/
structure ScoringWeights where
  value : ℚ := 1/5
  growth : ℚ := 1/4
  quality : ℚ := 1/5
  momentum : ℚ := 1/5
  risk : ℚ := 3/20
deriving DecidableEq

/-- `Scorecard` from `mcp_server/schemas/models.py`. -/
structure Scorecard where
  value : ℚ
  growth : ℚ
  quality : ℚ
  momentum : ℚ
  risk : ℚ
  composite : ℚ
deriving DecidableEq

/-- `_score_inverse` from `mcp_server/scoring/engine.py`. -/
def score_inverse (value : Option ℚ) (good_below bad_above : ℚ) : ℚ :=
  match value with
  | none => 50
  | some v =>
    if v ≤ good_below then 100
    else if v ≥ bad_above then 0
    else max 0 (100 - ((v - good_below) / (bad_above - good_below)) * 100)

/-- `_score_direct` from `mcp_server/scoring/engine.py`. -/
def score_direct (value : Option ℚ) (bad_below good_above : ℚ) : ℚ :=
  match value with
  | none => 50
  | some v =>
    if v ≤ bad_below then 0
    else if v ≥ good_above then 100
    else min 100 (((v - bad_below) / (good_above - bad_below)) * 100)

/-- `score_value` from `mcp_server/scoring/engine.py`. -/
def score_value (metrics : MetricsTable) : ℚ :=
  let pe_score := score_inverse metrics.pe 12 45
  let ps_score := score_inverse metrics.ps (3/2) 15
  let ev_ebitda_score := score_inverse metrics.ev_ebitda 8 40
  round2 ((pe_score + ps_score + ev_ebitda_score) / 3)

/-- `score_growth` from `mcp_server/scoring/engine.py`. -/
def score_growth (metrics : MetricsTable) : ℚ :=
  let revenue := score_direct metrics.revenue_yoy (-5) 30
  let eps := score_direct metrics.eps_yoy (-10) 35
  let forward := score_direct metrics.forward_eps_growth 0 25
  let cagr := score_direct metrics.revenue_cagr_3y 0 20
  round2 ((revenue + eps + forward + cagr) / 4)

/-- `score_quality` from `mcp_server/scoring/engine.py`. -/
def score_quality (metrics : MetricsTable) : ℚ :=
  let margin := score_direct metrics.net_margin (1/20) (1/4)
  let roe := score_direct metrics.roe (1/20) (3/10)
  let debt := score_inverse metrics.debt_equity (3/10) 2
  round2 ((margin + roe + debt) / 3)

/-- `score_momentum` from `mcp_server/scoring/engine.py`. -/
def score_momentum (metrics : MetricsTable) : ℚ :=
  let drawdown := score_inverse metrics.drawdown_risk 10 60
  let vol := score_inverse metrics.volatility_proxy (3/2) 7
  round2 ((drawdown + vol) / 2)

/-- `score_risk` from `mcp_server/scoring/engine.py`. -/
def score_risk (metrics : MetricsTable) : ℚ :=
  let beta := score_inverse metrics.beta (4/5) 2
  let drawdown := score_inverse metrics.drawdown_risk 10 70
  let debt := score_inverse metrics.debt_equity (2/5) (5/2)
  round2 ((beta + drawdown + debt) / 3)

/-- `composite_score` from `mcp_server/scoring/engine.py`. -/
def composite_score (metrics : MetricsTable) (weights : ScoringWeights) : Scorecard :=
  let value := score_value metrics
  let growth := score_growth metrics
  let quality := score_quality metrics
  let momentum := score_momentum metrics
  let risk := score_risk metrics
  let weighted :=
    value * weights.value
    + growth * weights.growth
    + quality * weights.quality
    + momentum * weights.momentum
    + risk * weights.risk
  { value := value
    growth := growth
    quality := quality
    momentum := momentum
    risk := risk
    composite := round2 weighted }

theorem score_inverse_mem (value : Option ℚ) (g b : ℚ) :
    0 ≤ score_inverse value g b ∧ score_inverse value g b ≤ 100 := by
  unfold score_inverse
  match value with
  | none => norm_num
  | some v =>
    dsimp only
    split
    · norm_num
    · split
      · norm_num
      · rename_i h1 h2
        push_neg at h1 h2
        refine ⟨le_max_left 0 _, max_le (by norm_num) ?_⟩
        have hspan : 0 < b - g := by linarith
        have hnum : 0 ≤ v - g := by linarith
        have : 0 ≤ (v - g) / (b - g) * 100 :=
          mul_nonneg (div_nonneg hnum hspan.le) (by norm_num)
        linarith

theorem score_direct_mem (value : Option ℚ) (b g : ℚ) :
    0 ≤ score_direct value b g ∧ score_direct value b g ≤ 100 := by
  unfold score_direct
  match value with
  | none => norm_num
  | some v =>
    dsimp only
    split
    · norm_num
    · split
      · norm_num
      · rename_i h1 h2
        push_neg at h1 h2
        refine ⟨le_min (by norm_num) ?_, min_le_left 100 _⟩
        have hspan : 0 < g - b := by linarith
        have hnum : 0 ≤ v - b := by linarith
        exact mul_nonneg (div_nonneg hnum hspan.le) (by norm_num)

theorem mean_round2_mem {s k : ℚ} (hk : 0 < k) (h0 : 0 ≤ s) (h1 : s ≤ 100 * k) :
    0 ≤ round2 (s / k) ∧ round2 (s / k) ≤ 100 :=
  ⟨round2_nonneg (div_nonneg h0 hk.le),
   round2_le_100 ((div_le_iff₀ hk).mpr (by linarith))⟩

theorem score_value_mem (m : MetricsTable) :
    0 ≤ score_value m ∧ score_value m ≤ 100 := by
  obtain ⟨a0, a1⟩ := score_inverse_mem m.pe 12 45
  obtain ⟨b0, b1⟩ := score_inverse_mem m.ps (3/2) 15
  obtain ⟨c0, c1⟩ := score_inverse_mem m.ev_ebitda 8 40
  unfold score_value
  exact mean_round2_mem (by norm_num) (by linarith) (by linarith)

theorem score_growth_mem (m : MetricsTable) :
    0 ≤ score_growth m ∧ score_growth m ≤ 100 := by
  obtain ⟨a0, a1⟩ := score_direct_mem m.revenue_yoy (-5) 30
  obtain ⟨b0, b1⟩ := score_direct_mem m.eps_yoy (-10) 35
  obtain ⟨c0, c1⟩ := score_direct_mem m.forward_eps_growth 0 25
  obtain ⟨d0, d1⟩ := score_direct_mem m.revenue_cagr_3y 0 20
  unfold score_growth
  exact mean_round2_mem (by norm_num) (by linarith) (by linarith)

theorem score_quality_mem (m : MetricsTable) :
    0 ≤ score_quality m ∧ score_quality m ≤ 100 := by
  obtain ⟨a0, a1⟩ := score_direct_mem m.net_margin (1/20) (1/4)
  obtain ⟨b0, b1⟩ := score_direct_mem m.roe (1/20) (3/10)
  obtain ⟨c0, c1⟩ := score_inverse_mem m.debt_equity (3/10) 2
  unfold score_quality
  exact mean_round2_mem (by norm_num) (by linarith) (by linarith)

theorem score_momentum_mem (m : MetricsTable) :
    0 ≤ score_momentum m ∧ score_momentum m ≤ 100 := by
  obtain ⟨a0, a1⟩ := score_inverse_mem m.drawdown_risk 10 60
  obtain ⟨b0, b1⟩ := score_inverse_mem m.volatility_proxy (3/2) 7
  unfold score_momentum
  exact mean_round2_mem (by norm_num) (by linarith) (by linarith)

theorem score_risk_mem (m : MetricsTable) :
    0 ≤ score_risk m ∧ score_risk m ≤ 100 := by
  obtain ⟨a0, a1⟩ := score_inverse_mem m.beta (4/5) 2
  obtain ⟨b0, b1⟩ := score_inverse_mem m.drawdown_risk 10 70
  obtain ⟨c0, c1⟩ := score_inverse_mem m.debt_equity (2/5) (5/2)
  unfold score_risk
  exact mean_round2_mem (by norm_num) (by linarith) (by linarith)

/-! ## Signal classifier (`mcp_server/analysis/signal_engine.py`) -/

/-- `generate_signal` from `mcp_server/analysis/signal_engine.py`. The risk
profile is the raw caller string, as in the source: anything other than
`"aggressive"` or `"conservative"` gets the moderate thresholds. -/
def generate_signal (scorecard : Scorecard) (risk_profile : String) : String × ℚ :=
  let thresholds : ℚ × ℚ :=
    if risk_profile = "aggressive" then (65, 40)
    else if risk_profile = "conservative" then (75, 50)
    else (70, 45)
  let score := scorecard.composite
  if score ≥ thresholds.1 then ("Buy", min 100 (round2 (score / 100 * 100)))
  else if score ≤ thresholds.2 then ("Sell", min 100 (round2 ((100 - score) / 100 * 100)))
  else ("Hold", round2 (60 + |score - (thresholds.1 + thresholds.2) / 2| / 2))

/-- The signal classifier as the spec words it (thresholds per risk profile,
Buy confidence `min(100, round(composite, 2))`, Sell confidence
`min(100, round(100 - composite, 2))`, Hold confidence
`round(60 + |composite - midpoint| / 2, 2)`), for comparison with
`generate_signal`. -/
def generate_signal_spec (composite : ℚ) (risk_profile : String) : String × ℚ :=
  let tb : ℚ :=
    if risk_profile = "aggressive" then 65
    else if risk_profile = "conservative" then 75 else 70
  let ts : ℚ :=
    if risk_profile = "aggressive" then 40
    else if risk_profile = "conservative" then 50 else 45
  if composite ≥ tb then ("Buy", min 100 (round2 composite))
  else if composite ≤ ts then ("Sell", min 100 (round2 (100 - composite)))
  else ("Hold", round2 (60 + |composite - (tb + ts) / 2| / 2))

/-- A scorecard whose only relevant component is the composite. -/
def scorecardOf (c : ℚ) : Scorecard :=
  { value := 0, growth := 0, quality := 0, momentum := 0, risk := 0, composite := c }

/-- C2 (counterexample): with every weight equal to 1 — each in [0,1], as the
claim allows — and the all-absent metrics table, every sub-score is 50, so the
composite is 250, outside [0,100]. The code never clamps the weighted sum. -/
theorem composite_unbounded_counterexample :
    (composite_score {} ⟨1, 1, 1, 1, 1⟩).composite = 250 ∧
    ¬ (composite_score {} ⟨1, 1, 1, 1, 1⟩).composite ≤ 100 := by
  with_unfolding_all decide

/-- C2 (amended): every sub-score of `composite_score` lies in [0,100] for
every metrics table; the composite is nonnegative whenever the weights are
nonnegative, and lies in [0,100] when the weights additionally sum to at most
1 (the claim's bound fails for weights that only satisfy "each in [0,1]"). -/
theorem scoring_bounds (m : MetricsTable) (w : ScoringWeights)
    (hv : 0 ≤ w.value) (hg : 0 ≤ w.growth) (hq : 0 ≤ w.quality)
    (hm : 0 ≤ w.momentum) (hr : 0 ≤ w.risk) :
    (0 ≤ (composite_score m w).value ∧ (composite_score m w).value ≤ 100) ∧
    (0 ≤ (composite_score m w).growth ∧ (composite_score m w).growth ≤ 100) ∧
    (0 ≤ (composite_score m w).quality ∧ (composite_score m w).quality ≤ 100) ∧
    (0 ≤ (composite_score m w).momentum ∧ (composite_score m w).momentum ≤ 100) ∧
    (0 ≤ (composite_score m w).risk ∧ (composite_score m w).risk ≤ 100) ∧
    (0 ≤ (composite_score m w).composite) ∧
    (w.value + w.growth + w.quality + w.momentum + w.risk ≤ 1 →
      (composite_score m w).composite ≤ 100) := by
  obtain ⟨v0, v1⟩ := score_value_mem m
  obtain ⟨g0, g1⟩ := score_growth_mem m
  obtain ⟨q0, q1⟩ := score_quality_mem m
  obtain ⟨m0, m1⟩ := score_momentum_mem m
  obtain ⟨r0, r1⟩ := score_risk_mem m
  have hc : composite_score m w =
      { value := score_value m, growth := score_growth m, quality := score_quality m,
        momentum := score_momentum m, risk := score_risk m,
        composite := round2 (score_value m * w.value + score_growth m * w.growth
          + score_quality m * w.quality + score_momentum m * w.momentum
          + score_risk m * w.risk) } := rfl
  rw [hc]
  refine ⟨⟨v0, v1⟩, ⟨g0, g1⟩, ⟨q0, q1⟩, ⟨m0, m1⟩, ⟨r0, r1⟩, ?_, ?_⟩
  · exact round2_nonneg (by positivity)
  · intro hsum
    refine round2_le_100 ?_
    have h1 := mul_le_mul_of_nonneg_right v1 hv
    have h2 := mul_le_mul_of_nonneg_right g1 hg
    have h3 := mul_le_mul_of_nonneg_right q1 hq
    have h4 := mul_le_mul_of_nonneg_right m1 hm
    have h5 := mul_le_mul_of_nonneg_right r1 hr
    nlinarith

/-- C2 (witness): the amended bound at the all-absent metrics table and the
default weights (which sum to exactly 1). -/
theorem scoring_bounds_witness :
    (0 ≤ (⟨1/5, 1/4, 1/5, 1/5, 3/20⟩ : ScoringWeights).value ∧
     0 ≤ (⟨1/5, 1/4, 1/5, 1/5, 3/20⟩ : ScoringWeights).growth ∧
     0 ≤ (⟨1/5, 1/4, 1/5, 1/5, 3/20⟩ : ScoringWeights).quality ∧
     0 ≤ (⟨1/5, 1/4, 1/5, 1/5, 3/20⟩ : ScoringWeights).momentum ∧
     0 ≤ (⟨1/5, 1/4, 1/5, 1/5, 3/20⟩ : ScoringWeights).risk ∧
     (⟨1/5, 1/4, 1/5, 1/5, 3/20⟩ : ScoringWeights).value
       + (⟨1/5, 1/4, 1/5, 1/5, 3/20⟩ : ScoringWeights).growth
       + (⟨1/5, 1/4, 1/5, 1/5, 3/20⟩ : ScoringWeights).quality
       + (⟨1/5, 1/4, 1/5, 1/5, 3/20⟩ : ScoringWeights).momentum
       + (⟨1/5, 1/4, 1/5, 1/5, 3/20⟩ : ScoringWeights).risk ≤ 1) ∧
    (0 ≤ (composite_score {} ⟨1/5, 1/4, 1/5, 1/5, 3/20⟩).composite ∧
     (composite_score {} ⟨1/5, 1/4, 1/5, 1/5, 3/20⟩).composite ≤ 100) :=
  ⟨⟨by norm_num, by norm_num, by norm_num, by norm_num, by norm_num, by norm_num⟩,
   (scoring_bounds {} ⟨1/5, 1/4, 1/5, 1/5, 3/20⟩ (by norm_num) (by norm_num)
     (by norm_num) (by norm_num) (by norm_num)).2.2.2.2.2.1,
   (scoring_bounds {} ⟨1/5, 1/4, 1/5, 1/5, 3/20⟩ (by norm_num) (by norm_num)
     (by norm_num) (by norm_num) (by norm_num)).2.2.2.2.2.2 (by norm_num)⟩

/-- C4: `generate_signal` is a pure total function agreeing pointwise with the
spec's classifier (buy≥65/sell≤40 aggressive, buy≥75/sell≤50 conservative,
buy≥70/sell≤45 otherwise; Buy confidence `min(100, round(composite, 2))`, Sell
confidence `min(100, round(100 − composite, 2))`, Hold confidence
`round(60 + |composite − midpoint| / 2, 2)`), and in particular composite 80
with moderate yields (Buy, 80.00), composite 42 with moderate yields
(Sell, 58.00), and composite 60 with aggressive yields (Hold, 63.75). -/
theorem generate_signal_matches_spec :
    (∀ (sc : Scorecard) (rp : String),
      generate_signal sc rp = generate_signal_spec sc.composite rp) ∧
    generate_signal (scorecardOf 80) "moderate" = ("Buy", 80) ∧
    generate_signal (scorecardOf 42) "moderate" = ("Sell", 58) ∧
    generate_signal (scorecardOf 60) "aggressive" = ("Hold", 255/4) := by
  refine ⟨?_, ?_, ?_, ?_⟩
  · intro sc rp
    have h1 : sc.composite / 100 * 100 = sc.composite := div_mul_cancel₀ _ (by norm_num)
    have h2 : (100 - sc.composite) / 100 * 100 = 100 - sc.composite :=
      div_mul_cancel₀ _ (by norm_num)
    by_cases ha : rp = "aggressive"
    · simp [generate_signal, generate_signal_spec, ha, h1, h2]
    · by_cases hc : rp = "conservative"
      · simp [generate_signal, generate_signal_spec, ha, hc, h1, h2]
      · simp [generate_signal, generate_signal_spec, ha, hc, h1, h2]
  · with_unfolding_all decide
  · with_unfolding_all decide
  · with_unfolding_all decide

/-- C5: an absent metric contributes exactly 50 (neutral) to its sub-score's
mean — `_score_inverse`/`_score_direct` return 50 on `None` for every
threshold pair — and the all-absent metrics table yields every sub-score
equal to 50.00. -/
theorem missing_metric_neutral :
    (∀ g b : ℚ, score_inverse none g b = 50) ∧
    (∀ b g : ℚ, score_direct none b g = 50) ∧
    score_value {} = 50 ∧ score_growth {} = 50 ∧ score_quality {} = 50 ∧
    score_momentum {} = 50 ∧ score_risk {} = 50 := by
  refine ⟨fun g b => rfl, fun b g => rfl, ?_, ?_, ?_, ?_, ?_⟩ <;> with_unfolding_all decide

/-! ## Technical indicators (`mcp_server/indicators/technical.py`) -/

/-- `calculate_ema` from `mcp_server/indicators/technical.py`: seed with the
simple average of the first `period` values, then fold the EMA recurrence over
the rest. -/
def calculate_ema (values : List ℚ) (period : ℕ) : Option ℚ :=
  if values.length < period then none
  else
    let multiplier : ℚ := 2 / ((period : ℚ) + 1)
    let seed : ℚ := (values.take period).sum / (period : ℚ)
    some ((values.drop period).foldl (fun ema value => (value - ema) * multiplier + ema) seed)

/-- The per-step deltas `values[idx] - values[idx-1]` of `calculate_rsi`. -/
def rsiDeltas (values : List ℚ) : List ℚ :=
  (values.zip values.tail).map fun p => p.2 - p.1

/-- The `gains` list of `calculate_rsi`: `max(delta, 0)` per step. -/
def rsiGains (values : List ℚ) : List ℚ :=
  (rsiDeltas values).map fun d => max d 0

/-- The `losses` list of `calculate_rsi`: `abs(min(delta, 0))` per step. -/
def rsiLosses (values : List ℚ) : List ℚ :=
  (rsiDeltas values).map fun d => |min d 0|

/-- Wilder smoothing `avg = (avg*(period-1) + new)/period` folded over a list. -/
def wilderSmooth (period : ℕ) (seed : ℚ) (rest : List ℚ) : ℚ :=
  rest.foldl (fun avg x => (avg * ((period : ℚ) - 1) + x) / (period : ℚ)) seed

/-- The smoothed average gain of `calculate_rsi`. -/
def rsiAvgGain (values : List ℚ) (period : ℕ) : ℚ :=
  wilderSmooth period (((rsiGains values).take period).sum / (period : ℚ))
    ((rsiGains values).drop period)

/-- The smoothed average loss of `calculate_rsi`. -/
def rsiAvgLoss (values : List ℚ) (period : ℕ) : ℚ :=
  wilderSmooth period (((rsiLosses values).take period).sum / (period : ℚ))
    ((rsiLosses values).drop period)

/-- `calculate_rsi` from `mcp_server/indicators/technical.py`. -/
def calculate_rsi (values : List ℚ) (period : ℕ) : Option ℚ :=
  if values.length ≤ period then none
  else if rsiAvgLoss values period = 0 then some 100
  else some (100 - 100 / (1 + rsiAvgGain values period / rsiAvgLoss values period))

/-- The `macd_series` of `calculate_macd`: for every prefix of the series,
`EMA12 - EMA26` once both are available. -/
def macdSeries (values : List ℚ) : List ℚ :=
  (List.range values.length).filterMap fun idx =>
    match calculate_ema (values.take (idx + 1)) 12, calculate_ema (values.take (idx + 1)) 26 with
    | some e12, some e26 => some (e12 - e26)
    | _, _ => none

/-- `calculate_macd` from `mcp_server/indicators/technical.py`. -/
def calculate_macd (values : List ℚ) : Option ℚ × Option ℚ :=
  if values.length < 35 then (none, none)
  else
    match macdSeries values with
    | [] => (none, none)
    | x :: xs => (some ((x :: xs).getLast (List.cons_ne_nil x xs)), calculate_ema (x :: xs) 9)

theorem calculate_ema_isSome {values : List ℚ} {period : ℕ} (h : ¬ values.length < period) :
    ∃ a, calculate_ema values period = some a := by
  unfold calculate_ema
  rw [if_neg h]
  exact ⟨_, rfl⟩

theorem macdSeries_ne_nil {values : List ℚ} (h : 26 ≤ values.length) :
    macdSeries values ≠ [] := by
  have htake : values.take (values.length - 1 + 1) = values := by
    have heq : values.length - 1 + 1 = values.length := by omega
    rw [heq, List.take_length]
  obtain ⟨a, ha⟩ := @calculate_ema_isSome values 12 (by omega)
  obtain ⟨b, hb⟩ := @calculate_ema_isSome values 26 (by omega)
  have hmem : a - b ∈ macdSeries values := by
    refine List.mem_filterMap.mpr ⟨values.length - 1, List.mem_range.mpr (by omega), ?_⟩
    rw [htake, ha, hb]
  exact List.ne_nil_of_mem hmem

/-- C6: `calculate_ema` is unavailable exactly when the series is shorter than
the period, `calculate_rsi` exactly when the length is at most the period, and
`calculate_macd` is the unavailable pair exactly when the series has fewer
than 35 points. -/
theorem indicator_min_length (values : List ℚ) (period : ℕ) (_hp : 1 ≤ period) :
    (calculate_ema values period = none ↔ values.length < period) ∧
    (calculate_rsi values period = none ↔ values.length ≤ period) ∧
    (calculate_macd values = (none, none) ↔ values.length < 35) := by
  refine ⟨?_, ?_, ?_⟩
  · by_cases h : values.length < period <;> simp [calculate_ema, h]
  · by_cases h : values.length ≤ period
    · simp [calculate_rsi, h]
    · simp only [calculate_rsi, if_neg h]
      split <;> simp [h]
  · by_cases h : values.length < 35
    · simp [calculate_macd, h]
    · have hs : macdSeries values ≠ [] := macdSeries_ne_nil (by omega)
      simp only [calculate_macd, if_neg h]
      split
      · exact absurd (by assumption) hs
      · simp [h]

/-- C6 (witness): the boundary facts at the empty series and period 1. -/
theorem indicator_min_length_witness :
    1 ≤ 1 ∧
    ((calculate_ema [] 1 = none ↔ ([] : List ℚ).length < 1) ∧
     (calculate_rsi [] 1 = none ↔ ([] : List ℚ).length ≤ 1) ∧
     (calculate_macd [] = (none, none) ↔ ([] : List ℚ).length < 35)) :=
  ⟨by decide, indicator_min_length [] 1 (by decide)⟩

theorem rsiDeltas_nonneg :
    ∀ (values : List ℚ), List.Chain' (· ≤ ·) values → ∀ x ∈ rsiDeltas values, 0 ≤ x
  | [], _, x, hx => by simp [rsiDeltas] at hx
  | [_], _, x, hx => by simp [rsiDeltas] at hx
  | a :: b :: t, h, x, hx => by
    rw [List.chain'_cons] at h
    have hstep : rsiDeltas (a :: b :: t) = (b - a) :: rsiDeltas (b :: t) := rfl
    rw [hstep] at hx
    rcases List.mem_cons.mp hx with h1 | h2
    · rw [h1]
      linarith [h.1]
    · exact rsiDeltas_nonneg (b :: t) h.2 x h2

theorem rsiLosses_eq_zero {values : List ℚ} (hmono : List.Chain' (· ≤ ·) values) :
    ∀ x ∈ rsiLosses values, x = 0 := by
  intro x hx
  obtain ⟨d, hd, hdx⟩ := List.mem_map.mp hx
  have h0 : 0 ≤ d := rsiDeltas_nonneg values hmono d hd
  rw [← hdx, min_eq_right h0, abs_zero]

theorem wilderSmooth_zeros (period : ℕ) :
    ∀ l : List ℚ, (∀ x ∈ l, x = 0) → wilderSmooth period 0 l = 0
  | [], _ => rfl
  | a :: t, h => by
    have ha : a = 0 := h a (List.mem_cons_self a t)
    have hstep : wilderSmooth period 0 (a :: t) =
        wilderSmooth period ((0 * ((period : ℚ) - 1) + a) / (period : ℚ)) t := rfl
    rw [hstep, ha]
    simp only [zero_mul, add_zero, zero_div]
    exact wilderSmooth_zeros period t fun x hx => h x (List.mem_cons_of_mem a hx)

theorem rsiAvgLoss_of_monotone {values : List ℚ} (hmono : List.Chain' (· ≤ ·) values)
    (period : ℕ) : rsiAvgLoss values period = 0 := by
  have hall := rsiLosses_eq_zero hmono
  have hseed : ((rsiLosses values).take period).sum = 0 :=
    List.sum_eq_zero fun x hx => hall x (List.mem_of_mem_take hx)
  unfold rsiAvgLoss
  rw [hseed, zero_div]
  exact wilderSmooth_zeros period _ fun x hx => hall x (List.mem_of_mem_drop hx)

/-- C8: whenever the Wilder-smoothed average loss is exactly zero (and the
series is long enough to produce a value at all) `calculate_rsi` returns
exactly 100; consequently on any monotonically non-decreasing — in particular
strictly increasing — close series with more than 14 points, RSI-14 is
greater than 60. -/
theorem rsi_zero_loss_is_100 :
    (∀ (values : List ℚ) (period : ℕ), period < values.length →
      rsiAvgLoss values period = 0 → calculate_rsi values period = some 100) ∧
    (∀ values : List ℚ, List.Chain' (· ≤ ·) values → 14 < values.length →
      ∃ r, calculate_rsi values 14 = some r ∧ 60 < r) := by
  constructor
  · intro values period hlen hloss
    unfold calculate_rsi
    rw [if_neg (by omega), if_pos hloss]
  · intro values hmono hlen
    refine ⟨100, ?_, by norm_num⟩
    unfold calculate_rsi
    rw [if_neg (by omega), if_pos (rsiAvgLoss_of_monotone hmono 14)]

/-- The close series 1, 2, …, 39 from the spec's RSI scenario. -/
def closesOneTo39 : List ℚ :=
  [1, 2, 3, 4, 5, 6, 7, 8, 9, 10, 11, 12, 13, 14, 15, 16, 17, 18, 19, 20,
   21, 22, 23, 24, 25, 26, 27, 28, 29, 30, 31, 32, 33, 34, 35, 36, 37, 38, 39]

/-- C8 (witness): the spec's example — closes 1..39 ascending by 1 give an
RSI above 60 (indeed exactly 100). -/
theorem rsi_zero_loss_is_100_witness :
    (List.Chain' (· ≤ ·) closesOneTo39 ∧ 14 < closesOneTo39.length) ∧
    (∃ r, calculate_rsi closesOneTo39 14 = some r ∧ 60 < r) :=
  ⟨⟨by norm_num [closesOneTo39, List.chain'_cons], by with_unfolding_all decide⟩,
   rsi_zero_loss_is_100.2 closesOneTo39 (by norm_num [closesOneTo39, List.chain'_cons])
     (by with_unfolding_all decide)⟩

/-! ## Metrics normalizer (`mcp_server/analysis/metrics.py`) -/

/-- `OHLCVBar` from `mcp_server/schemas/models.py`; the `open` field is named
`open_` because `open` is a Lean keyword. Dates are modelled as naturals
(ordinal day). -/
structure OHLCVBar where
  date : ℕ
  open_ : ℚ
  high : ℚ
  low : ℚ
  close : ℚ
  volume : ℚ
deriving DecidableEq

/-- The `sorted(bars, key=date)` close extraction shared by the metric
functions. Python's `sorted` is a stable sort by date; it is modelled by the
stable `List.insertionSort`. -/
def sortedCloses (bars : List OHLCVBar) : List ℚ :=
  (List.insertionSort (fun a b => a.date ≤ b.date) bars).map fun bar => bar.close

/-- One iteration of the running-peak loop in `drawdown_risk`: the
accumulator is `(peak, max_drawdown)`. -/
def ddStep (acc : ℚ × ℚ) (close : ℚ) : ℚ × ℚ :=
  let peak := if acc.1 < close then close else acc.1
  if 0 < peak then (peak, max acc.2 ((peak - close) / peak * 100)) else (peak, acc.2)

/-- `drawdown_risk` from `mcp_server/analysis/metrics.py`: maximum running-peak
drawdown percentage over the date-sorted closes. -/
def drawdown_risk (bars : List OHLCVBar) : Option ℚ :=
  if bars.isEmpty then none
  else
    match sortedCloses bars with
    | [] => none
    | c :: rest => some ((List.foldl ddStep (c, 0) (c :: rest)).2)

/-- `volatility_proxy` from `mcp_server/analysis/metrics.py`: mean absolute
day-over-day percentage change over the date-sorted closes (steps with a zero
previous close are skipped). -/
def volatility_proxy (bars : List OHLCVBar) : Option ℚ :=
  if bars.length < 2 then none
  else
    let closes := sortedCloses bars
    let returns := (closes.zip closes.tail).filterMap fun p =>
      if p.1 = 0 then none else some (|(p.2 - p.1) / p.1| * 100)
    if returns.isEmpty then none
    else some (returns.sum / (returns.length : ℚ))

/-- `safe_cagr` from `mcp_server/analysis/metrics.py`. The source computes
`(pow(end/start, 1/years) - 1) * 100` with real-valued exponentiation; the
exponentiation is kept abstract as the parameter `rpow` (no claim depends on
its numeric value), with `rpow b e` standing for Python's `b ** e`. -/
def safe_cagr (rpow : ℚ → ℚ → ℚ) (values : List ℚ) (years : ℕ) : Option ℚ :=
  if values.length < years + 1 then none
  else
    let start := values.getD (values.length - (years + 1)) 0
    let endv := values.getD (values.length - 1) 0
    if start ≤ 0 then none
    else some ((rpow (endv / start) (1 / (years : ℚ)) - 1) * 100)

/-- `margin_trend` from `mcp_server/analysis/metrics.py`: mean of whichever
margins are present. -/
def margin_trend (gross_margin operating_margin net_margin : Option ℚ) : Option ℚ :=
  let margins := [gross_margin, operating_margin, net_margin].filterMap id
  if margins.isEmpty then none
  else some (margins.sum / (margins.length : ℚ))

/-- `FundamentalsData` from `mcp_server/schemas/models.py`, as consumed by
`compute_metrics` (field set taken from its uses and the repository tests). -/
structure FundamentalsData where
  ticker : String := ""
  pe : Option ℚ := none
  forward_pe : Option ℚ := none
  ps : Option ℚ := none
  ev_ebitda : Option ℚ := none
  beta : Option ℚ := none
  roe : Option ℚ := none
  debt_to_equity : Option ℚ := none
  gross_margin : Option ℚ := none
  operating_margin : Option ℚ := none
  net_margin : Option ℚ := none
  revenue_yoy : Option ℚ := none
  eps_yoy : Option ℚ := none
  forward_eps_growth : Option ℚ := none
  revenue_history : List ℚ := []
  source : String := ""
deriving DecidableEq

/-- `compute_metrics` from `mcp_server/analysis/metrics.py`. `rpow` is the
abstract real exponentiation used by `safe_cagr`. -/
def compute_metrics (rpow : ℚ → ℚ → ℚ) (fundamentals : Option FundamentalsData)
    (bars : List OHLCVBar) : MetricsTable :=
  match fundamentals with
  | none =>
    { volatility_proxy := volatility_proxy bars
      drawdown_risk := drawdown_risk bars }
  | some f =>
    { revenue_yoy := f.revenue_yoy
      revenue_cagr_3y := safe_cagr rpow f.revenue_history 3
      revenue_cagr_5y := safe_cagr rpow f.revenue_history 5
      eps_yoy := f.eps_yoy
      forward_eps_growth := f.forward_eps_growth
      margin_trend := margin_trend f.gross_margin f.operating_margin f.net_margin
      gross_margin := f.gross_margin
      operating_margin := f.operating_margin
      net_margin := f.net_margin
      roe := f.roe
      roic := f.roe
      debt_equity := f.debt_to_equity
      pe := f.pe
      forward_pe := f.forward_pe
      ps := f.ps
      ev_ebitda := f.ev_ebitda
      beta := f.beta
      volatility_proxy := volatility_proxy bars
      drawdown_risk := drawdown_risk bars }

/-- C9: for every present fundamentals snapshot, `compute_metrics` copies the
`roe` field into `roic` verbatim — no distinct ROIC value is computed — so
`roic` is absent exactly when `roe` is absent. -/
theorem compute_metrics_roic_mirrors_roe (rpow : ℚ → ℚ → ℚ)
    (f : FundamentalsData) (bars : List OHLCVBar) :
    (compute_metrics rpow (some f) bars).roic = f.roe ∧
    ((compute_metrics rpow (some f) bars).roic = none ↔ f.roe = none) :=
  ⟨rfl, Iff.rfl⟩

theorem ddFold_mono : ∀ (l : List ℚ) (acc : ℚ × ℚ), acc.2 ≤ (List.foldl ddStep acc l).2
  | [], _ => le_refl _
  | c :: t, acc => by
    rw [List.foldl_cons]
    have hstep : acc.2 ≤ (ddStep acc c).2 := by
      unfold ddStep
      dsimp only
      split <;> split <;> dsimp only <;>
        first
        | exact le_max_left _ _
        | exact le_refl _
    exact le_trans hstep (ddFold_mono t _)

theorem ddStep_peak_eq (peak : ℚ) (hge : ¬ peak < peak) : ddStep (peak, 0) peak = (peak, 0) := by
  unfold ddStep
  dsimp only
  rw [if_neg hge]
  by_cases hc0 : 0 < peak
  · rw [if_pos hc0]
    norm_num
  · rw [if_neg hc0]

theorem ddFold_zero : ∀ (rest : List ℚ) (peak : ℚ), List.Chain' (· < ·) (peak :: rest) →
    (List.foldl ddStep (peak, 0) rest).2 = 0
  | [], _, _ => rfl
  | c :: t, peak, h => by
    rw [List.chain'_cons] at h
    have hstep : ddStep (peak, 0) c = (c, 0) := by
      unfold ddStep
      dsimp only
      rw [if_pos h.1]
      by_cases hc0 : 0 < c
      · rw [if_pos hc0]
        norm_num
      · rw [if_neg hc0]
    rw [List.foldl_cons, hstep]
    exact ddFold_zero t c h.2

theorem sortedCloses_length (bars : List OHLCVBar) :
    (sortedCloses bars).length = bars.length := by
  unfold sortedCloses
  rw [List.length_map, List.length_insertionSort]

/-- The spec's drawdown scenario: closes 100, 102, 99, 105, 103, 108, 107 on
ascending dates (open/high/low/volume as in the repository's test fixture). -/
def bars7 : List OHLCVBar :=
  [⟨0, 99, 101, 98, 100, 1000⟩, ⟨1, 101, 103, 100, 102, 1001⟩,
   ⟨2, 98, 100, 97, 99, 1002⟩, ⟨3, 104, 106, 103, 105, 1003⟩,
   ⟨4, 102, 104, 101, 103, 1004⟩, ⟨5, 107, 109, 106, 108, 1005⟩,
   ⟨6, 106, 108, 105, 107, 1006⟩]

set_option maxRecDepth 100000 in
/-- C7 (counterexample): on the series 100, 102, 99, 105, 103, 108, 107 the
code returns the 102→99 running-peak drawdown, 300/102 = 50/17 ≈ 2.94 — not
the 105→103 percentage (105−103)/105·100 = 40/21 ≈ 1.90 that the claim
names. -/
theorem drawdown_105_103_counterexample :
    drawdown_risk bars7 = some (50/17) ∧
    (50/17 : ℚ) ≠ (105 - 103) / 105 * 100 := by
  with_unfolding_all decide

set_option maxRecDepth 100000 in
/-- C7 (amended): on the spec's series `drawdown_risk` returns the maximum
running-peak drawdown, which comes from the 102→99 segment
((102−99)/102·100); for every non-empty bar list the result is a number ≥ 0;
and on a date-sorted bar list with strictly increasing closes it is exactly
0. -/
theorem drawdown_risk_properties :
    drawdown_risk bars7 = some ((102 - 99) / 102 * 100) ∧
    (∀ bars : List OHLCVBar, bars ≠ [] →
      ∃ d, drawdown_risk bars = some d ∧ 0 ≤ d) ∧
    (∀ bars : List OHLCVBar, bars ≠ [] →
      List.Sorted (fun a b => a.date ≤ b.date) bars →
      List.Chain' (fun a b => a.close < b.close) bars →
      drawdown_risk bars = some 0) := by
  refine ⟨by with_unfolding_all decide, ?_, ?_⟩
  · intro bars hne
    rcases bars with _ | ⟨b, bs⟩
    · exact absurd rfl hne
    · have hsc : sortedCloses (b :: bs) ≠ [] := by
        intro h
        have hl := sortedCloses_length (b :: bs)
        rw [h] at hl
        simp at hl
      unfold drawdown_risk
      rw [if_neg (by simp)]
      rcases hh : sortedCloses (b :: bs) with _ | ⟨c, rest⟩
      · exact absurd hh hsc
      · simp only [hh]
        exact ⟨_, rfl, by simpa using ddFold_mono (c :: rest) (c, 0)⟩
  · intro bars hne hsorted hchain
    rcases bars with _ | ⟨b, bs⟩
    · exact absurd rfl hne
    · have heq : List.insertionSort (fun a b => a.date ≤ b.date) (b :: bs) = b :: bs :=
        List.Sorted.insertionSort_eq hsorted
      have hcons : sortedCloses (b :: bs) = b.close :: bs.map (fun x => x.close) := by
        unfold sortedCloses
        rw [heq, List.map_cons]
      have hchain' : List.Chain' (· < ·) (b.close :: bs.map fun x => x.close) := by
        have hm := (List.chain'_map (fun x : OHLCVBar => x.close)).mpr hchain
        simpa using hm
      unfold drawdown_risk
      rw [if_neg (by simp)]
      simp only [hcons]
      rw [List.foldl_cons, ddStep_peak_eq b.close (lt_irrefl b.close),
        ddFold_zero (bs.map fun x => x.close) b.close hchain']

/-- A two-bar list with ascending dates and strictly increasing closes. -/
def bars2 : List OHLCVBar :=
  [⟨0, 0, 0, 0, 1, 0⟩, ⟨1, 0, 0, 0, 2, 0⟩]

/-- C7 (witness): the amended properties instantiated on a concrete
two-bar strictly increasing series. -/
theorem drawdown_risk_properties_witness :
    (bars2 ≠ [] ∧ List.Sorted (fun a b => a.date ≤ b.date) bars2 ∧
     List.Chain' (fun a b => a.close < b.close) bars2) ∧
    (∃ d, drawdown_risk bars2 = some d ∧ 0 ≤ d) ∧
    drawdown_risk bars2 = some 0 :=
  ⟨⟨List.cons_ne_nil _ _,
    by norm_num [bars2, List.sorted_cons],
    by norm_num [bars2, List.chain'_cons]⟩,
   drawdown_risk_properties.2.1 bars2 (List.cons_ne_nil _ _),
   drawdown_risk_properties.2.2 bars2 (List.cons_ne_nil _ _)
     (by norm_num [bars2, List.sorted_cons])
     (by norm_num [bars2, List.chain'_cons])⟩

/-! ## Provider router (`mcp_server/providers/router.py`)

A provider call either returns a value or raises; Python truthiness of the
returned value (`if primary_result:`) is supplied as a function. The pair
returned by `with_fallback_routed_invoked` records whether the secondary
provider's method was invoked. -/

/-- The outcome of awaiting one provider method: a returned value or a raised
exception (its message). -/
inductive Outcome (T : Type) where
  | ok (val : T)
  | raise (msg : String)
deriving DecidableEq

/-- `RoutedData` from `mcp_server/providers/router.py`. -/
structure RoutedData (T : Type) where
  data : Option T
  fallback_warning : Option String := none
  source : Option String := none
deriving DecidableEq

/-- The `primary_reason` string after the primary attempt: `"no data
returned"` unless the primary raised, in which case `"request failed
(<detail>)"`. -/
def primaryReason {T : Type} : Outcome T → String
  | .ok _ => "no data returned"
  | .raise e => "request failed (" ++ e ++ ")"

/-- The secondary half of `_with_fallback_routed`: try the secondary provider
given the recorded primary reason. -/
def secondaryPhase {T : Type} (truthy : T → Bool)
    (methodName pName sName reason : String) (s : Outcome T) : RoutedData T :=
  match s with
  | .ok v =>
    if truthy v then
      { data := some v,
        fallback_warning := some ("Primary provider (" ++ pName ++ ") " ++ reason
          ++ "; using fallback provider (" ++ sName ++ ")."),
        source := some sName }
    else
      { data := none,
        fallback_warning := some ("No provider returned data for " ++ methodName
          ++ " (" ++ pName ++ " then " ++ sName ++ ")."),
        source := none }
  | .raise e =>
    { data := none,
      fallback_warning := some ("Both providers failed for " ++ methodName ++ ": "
        ++ pName ++ " (" ++ reason ++ "); " ++ sName ++ " (request failed: " ++ e ++ ")."),
      source := none }

/-- `ProviderRouter._with_fallback_routed`, instrumented: the boolean records
whether the secondary provider's method was invoked. -/
def with_fallback_routed_invoked {T : Type} (truthy : T → Bool)
    (methodName pName sName : String) (p s : Outcome T) : RoutedData T × Bool :=
  match p with
  | .ok v =>
    if truthy v then
      ({ data := some v, fallback_warning := none, source := some pName }, false)
    else
      (secondaryPhase truthy methodName pName sName (primaryReason (Outcome.ok v)) s, true)
  | .raise e =>
    (secondaryPhase truthy methodName pName sName
      (primaryReason (Outcome.raise e : Outcome T)) s, true)

/-- `ProviderRouter._with_fallback_routed` from `mcp_server/providers/router.py`. -/
def with_fallback_routed {T : Type} (truthy : T → Bool)
    (methodName pName sName : String) (p s : Outcome T) : RoutedData T :=
  (with_fallback_routed_invoked truthy methodName pName sName p s).1

/-- C3: when the primary provider returns a truthy (non-empty) result, the
router returns that payload with the primary's name as source and no fallback
diagnostic, and the secondary is not invoked — the outcome is independent of
the secondary's behavior. -/
theorem router_primary_short_circuits {T : Type} (truthy : T → Bool)
    (methodName pName sName : String) (v : T) (s : Outcome T)
    (h : truthy v = true) :
    with_fallback_routed_invoked truthy methodName pName sName (Outcome.ok v) s =
      ({ data := some v, fallback_warning := none, source := some pName }, false) := by
  simp [with_fallback_routed_invoked, h]

/-- C3 (witness): a primary returning the non-empty list `[1]` short-circuits
an empty-returning secondary. -/
theorem router_primary_short_circuits_witness :
    ((fun l : List ℕ => !l.isEmpty) [1] = true) ∧
    with_fallback_routed_invoked (fun l : List ℕ => !l.isEmpty)
        "get_price" "alpha_vantage" "finnhub" (Outcome.ok [1]) (Outcome.ok []) =
      ({ data := some [1], fallback_warning := none, source := some "alpha_vantage" }, false) :=
  ⟨by decide,
   router_primary_short_circuits (fun l : List ℕ => !l.isEmpty)
     "get_price" "alpha_vantage" "finnhub" [1] (Outcome.ok []) (by decide)⟩

/-- C1 (counterexample): with both providers returning an empty list (no
exception raised), the payload and source are absent as claimed, but the
diagnostic is the "No provider returned data for …" sentence — it is not of
the claimed "Both providers failed for …" form and carries no per-provider
reason strings. -/
theorem router_both_empty_counterexample :
    (with_fallback_routed (fun l : List ℕ => !l.isEmpty)
        "get_price" "alpha_vantage" "finnhub" (Outcome.ok []) (Outcome.ok [])).data = none ∧
    (with_fallback_routed (fun l : List ℕ => !l.isEmpty)
        "get_price" "alpha_vantage" "finnhub" (Outcome.ok []) (Outcome.ok [])).source = none ∧
    (with_fallback_routed (fun l : List ℕ => !l.isEmpty)
        "get_price" "alpha_vantage" "finnhub" (Outcome.ok []) (Outcome.ok [])).fallback_warning =
      some "No provider returned data for get_price (alpha_vantage then finnhub)." ∧
    List.isPrefixOf "Both providers failed for get_price: ".data
      "No provider returned data for get_price (alpha_vantage then finnhub).".data = false := by
  refine ⟨rfl, rfl, by decide, by decide⟩

/-- C1 (amended): when the primary fails or returns empty and the secondary
raises, the router returns absent payload and source with the exact
diagnostic "Both providers failed for <operation>: <primary> (<reason>);
<secondary> (request failed: <detail>)."; when the secondary instead returns
an empty result, payload and source are absent and the diagnostic is "No
provider returned data for <operation> (<primary> then <secondary>).", which
names both providers but no per-provider reasons. -/
theorem router_both_fail_diagnostics {T : Type} (truthy : T → Bool)
    (methodName pName sName : String) (p : Outcome T)
    (hprimary : ∀ v, p = Outcome.ok v → truthy v = false) :
    (∀ e, with_fallback_routed truthy methodName pName sName p (Outcome.raise e) =
      { data := none,
        fallback_warning := some ("Both providers failed for " ++ methodName ++ ": "
          ++ pName ++ " (" ++ primaryReason p ++ "); " ++ sName
          ++ " (request failed: " ++ e ++ ")."),
        source := none }) ∧
    (∀ w, truthy w = false →
      with_fallback_routed truthy methodName pName sName p (Outcome.ok w) =
      { data := none,
        fallback_warning := some ("No provider returned data for " ++ methodName
          ++ " (" ++ pName ++ " then " ++ sName ++ ")."),
        source := none }) := by
  constructor
  · intro e
    cases p with
    | ok v =>
      have hv := hprimary v rfl
      simp [with_fallback_routed, with_fallback_routed_invoked, secondaryPhase,
        primaryReason, hv]
    | raise e0 =>
      simp [with_fallback_routed, with_fallback_routed_invoked, secondaryPhase,
        primaryReason]
  · intro w hw
    cases p with
    | ok v =>
      have hv := hprimary v rfl
      simp [with_fallback_routed, with_fallback_routed_invoked, secondaryPhase,
        primaryReason, hv, hw]
    | raise e0 =>
      simp [with_fallback_routed, with_fallback_routed_invoked, secondaryPhase,
        primaryReason, hw]

/-- C1 (witness): an empty primary with a raising secondary produces the
exact "Both providers failed" diagnostic. -/
theorem router_both_fail_diagnostics_witness :
    (∀ v : List ℕ, (Outcome.ok ([] : List ℕ)) = Outcome.ok v →
      (fun l : List ℕ => !l.isEmpty) v = false) ∧
    with_fallback_routed (fun l : List ℕ => !l.isEmpty)
        "get_price" "alpha_vantage" "finnhub" (Outcome.ok []) (Outcome.raise "timeout") =
      { data := none,
        fallback_warning := some ("Both providers failed for " ++ "get_price" ++ ": "
          ++ "alpha_vantage" ++ " (" ++ primaryReason (Outcome.ok ([] : List ℕ)) ++ "); "
          ++ "finnhub" ++ " (request failed: " ++ "timeout" ++ ")."),
        source := none } :=
  have hp : ∀ v : List ℕ, (Outcome.ok ([] : List ℕ)) = Outcome.ok v →
      (fun l : List ℕ => !l.isEmpty) v = false := by
    intro v h
    cases h
    decide
  ⟨hp,
   (router_both_fail_diagnostics (fun l : List ℕ => !l.isEmpty)
     "get_price" "alpha_vantage" "finnhub" (Outcome.ok []) hp).1 "timeout"⟩

/-- A Python value that may or may not be a list of bars; `nonList` carries
its own truthiness. Models the `isinstance(result, list)` checks. -/
inductive PyList (α : Type) where
  | list (l : List α)
  | nonList (truthy : Bool)
deriving DecidableEq

/-- Python truthiness of a provider result for the OHLCV/candle routes. -/
def pyTruthy {α : Type} : PyList α → Bool
  | .list l => !l.isEmpty
  | .nonList t => t

/-- `result if isinstance(result, list) else []` applied to an optional
routed payload. -/
def asList {α : Type} : Option (PyList α) → List α
  | some (.list l) => l
  | _ => []

/-- `ProviderRouter.get_ohlcv` from `mcp_server/providers/router.py`. -/
def get_ohlcv (pName sName : String) (p s : Outcome (PyList OHLCVBar)) : List OHLCVBar :=
  asList (with_fallback_routed pyTruthy "get_ohlcv" pName sName p s).data

/-- `ProviderRouter.get_candles` from `mcp_server/providers/router.py`. -/
def get_candles (pName sName : String) (p s : Outcome (PyList OHLCVBar)) : List OHLCVBar :=
  asList (with_fallback_routed pyTruthy "get_candles" pName sName p s).data

/-- `ProviderRouter.get_candles_routed` from `mcp_server/providers/router.py`. -/
def get_candles_routed (pName sName : String) (p s : Outcome (PyList OHLCVBar)) :
    RoutedData (List OHLCVBar) :=
  let routed := with_fallback_routed pyTruthy "get_candles" pName sName p s
  { data := some (asList routed.data),
    fallback_warning := routed.fallback_warning,
    source := routed.source }

/-- A provider attempt that raised, returned an empty list, or returned a
non-list value. -/
def failedEmptyOrNonList {α : Type} : Outcome (PyList α) → Prop
  | .raise _ => True
  | .ok (.list l) => l = []
  | .ok (.nonList _) => True

theorem asList_routed_empty {n pn sn : String} {p s : Outcome (PyList OHLCVBar)}
    (hp : failedEmptyOrNonList p) (hs : failedEmptyOrNonList s) :
    asList (with_fallback_routed pyTruthy n pn sn p s).data = [] := by
  cases p with
  | raise e =>
    cases s with
    | raise e2 => rfl
    | ok w =>
      cases w with
      | list m =>
        have hm : m = [] := hs
        subst hm
        rfl
      | nonList t => cases t <;> rfl
  | ok v =>
    cases v with
    | list l =>
      have hl : l = [] := hp
      subst hl
      cases s with
      | raise e2 => rfl
      | ok w =>
        cases w with
        | list m =>
          have hm : m = [] := hs
          subst hm
          rfl
        | nonList t => cases t <;> rfl
    | nonList t =>
      cases t with
      | false =>
        cases s with
        | raise e2 => rfl
        | ok w =>
          cases w with
          | list m =>
            have hm : m = [] := hs
            subst hm
            rfl
          | nonList t2 => cases t2 <;> rfl
      | true => rfl

/-- C10: the OHLCV and candle routes always hand the caller a list — in
particular, when both providers raise, return empty, or return a non-list
value, the result is the empty list, and `get_candles_routed` always carries
`some` list — never an absent payload. -/
theorem ohlcv_routes_return_lists (pName sName : String)
    (p s : Outcome (PyList OHLCVBar))
    (hp : failedEmptyOrNonList p) (hs : failedEmptyOrNonList s) :
    get_ohlcv pName sName p s = [] ∧
    get_candles pName sName p s = [] ∧
    (get_candles_routed pName sName p s).data = some [] := by
  refine ⟨asList_routed_empty hp hs, asList_routed_empty hp hs, ?_⟩
  show some (asList (with_fallback_routed pyTruthy "get_candles" pName sName p s).data) = some []
  rw [asList_routed_empty hp hs]

/-- C10 (witness): a raising primary and an empty-returning secondary yield
the empty list on every OHLCV/candle route. -/
theorem ohlcv_routes_return_lists_witness :
    failedEmptyOrNonList (Outcome.raise "provider down" : Outcome (PyList OHLCVBar)) ∧
    failedEmptyOrNonList (Outcome.ok (PyList.list ([] : List OHLCVBar))) ∧
    (get_ohlcv "alpha_vantage" "finnhub" (Outcome.raise "provider down")
        (Outcome.ok (PyList.list [])) = [] ∧
     get_candles "alpha_vantage" "finnhub" (Outcome.raise "provider down")
        (Outcome.ok (PyList.list [])) = [] ∧
     (get_candles_routed "alpha_vantage" "finnhub" (Outcome.raise "provider down")
        (Outcome.ok (PyList.list []))).data = some []) :=
  ⟨trivial, rfl,
   ohlcv_routes_return_lists "alpha_vantage" "finnhub"
     (Outcome.raise "provider down") (Outcome.ok (PyList.list [])) trivial rfl⟩

end StockSpec
